import Mathlib

/-
Shallow embedding of `screen_capture.py` (class `ScreenCaptureService`)
from the screen-monitor repository.

Modelling conventions:
  * Python floats are modelled as rationals (ℚ); Python ints as ℤ.
  * `int(x)` applied to a float truncates toward zero: `pyInt`.
  * The configuration dict `self._config` becomes the record `Config`.
    Its `webhook_urls` entry holds a *reference* to a Python list object;
    we model object identity with a small heap `Nat → List String`, so
    that `dict.copy()` (a shallow copy) duplicates the reference but not
    the list, exactly as in CPython.
  * PIL images are abstracted to their functional contract (the spec
    treats pixel manipulation as an external collaborator): an `Image`
    carries its dimensions, whether the timestamp overlay has been
    drawn on it, and whether it is the synthetic placeholder produced
    by `_create_test_image`.
  * The HTTP layer is abstracted as a function `post : Nat → Nat`
    giving the status code returned for the n-th request issued on
    behalf of one delivery; `requests.Response.raise_for_status`
    raises exactly for status codes in [400, 600).
  * `datetime.now()` values are passed in as abstract `Nat` timestamps.
  * Exception paths that can only arise from ill-typed dynamic values
    or from PIL-internal failures are outside the pure model; the
    `ValueError` raises in `update_config` are modelled with `Except`.
-/

namespace ScreenMonitor

/-- Python `int()` on a rational: truncation toward zero. -/
def pyInt (q : ℚ) : ℤ := if 0 ≤ q then ⌊q⌋ else ⌈q⌉

/-- The `external_format` configuration entry: `'base64'` or `'multipart'`. -/
inductive ExternalFormat where
  | base64
  | multipart
deriving DecidableEq

/-- Store of Python list objects, addressed by identity. -/
abbrev Heap := Nat → List String

/-- In-place mutation of the list object at address `r`. -/
def heapSet (h : Heap) (r : Nat) (l : List String) : Heap :=
  fun n => if n = r then l else h n

/-- Abstraction of a PIL image: dimensions plus the content facts the
spec talks about (timestamp overlay drawn, synthetic placeholder). -/
structure Image where
  width : ℤ
  height : ℤ
  timestamped : Bool
  placeholder : Bool
deriving DecidableEq

/-- `self._stats` (uptime is derived on read, not stored). -/
structure Stats where
  total_captures : Nat
  failed_captures : Nat
  start_time : Option Nat
deriving DecidableEq

/-- `self._config`.  `webhook_urls` is the heap address of the list object. -/
structure Config where
  interval : ℚ
  quality : ℤ
  resize_factor : ℚ
  add_timestamp : Bool
  monitor : ℤ
  webhook_urls : Nat
  send_to_external : Bool
  external_format : ExternalFormat
  webhook_quality : ℤ
  webhook_max_width : ℤ
  webhook_max_height : ℤ
deriving DecidableEq

/-- Whole-service state: `ScreenCaptureService.__init__` fields plus the
module-level `CAPTURE_LIBRARY is not None` fact and the heap of list
objects shared with callers. -/
structure Service where
  capture_lib_available : Bool
  capturing : Bool
  latest_image : Option Image
  last_capture_time : Option Nat
  last_error : Option String
  stats : Stats
  config : Config
  heap : Heap

/-- The defaults assigned to `self._config` in `__init__`. -/
def initConfig : Config :=
  { interval := 1
    quality := 85
    resize_factor := 1/2
    add_timestamp := true
    monitor := 0
    webhook_urls := 0
    send_to_external := false
    external_format := .base64
    webhook_quality := 60
    webhook_max_width := 1280
    webhook_max_height := 720 }

/-- `ScreenCaptureService.__init__`: the fresh `webhook_urls` list object
lives at address 0. -/
def initService (lib : Bool) : Service :=
  { capture_lib_available := lib
    capturing := false
    latest_image := none
    last_capture_time := none
    last_error := none
    stats := { total_captures := 0, failed_captures := 0, start_time := none }
    config := initConfig
    heap := fun _ => [] }

/-- `get_config`: `self._config.copy()` — a *shallow* dict copy, so the
returned record carries the same `webhook_urls` list reference. -/
def get_config (s : Service) : Config := s.config

/-- `get_webhook_urls` / iterating `self._config['webhook_urls']`:
the current contents of the shared list object. -/
def get_webhook_urls (s : Service) : List String :=
  s.heap s.config.webhook_urls

/-- The configuration as an external observer sees it through
`get_config()`: every scalar entry plus the *contents* of the nested
webhook-URL list. -/
structure ConfigView where
  interval : ℚ
  quality : ℤ
  resize_factor : ℚ
  add_timestamp : Bool
  monitor : ℤ
  urls : List String
  send_to_external : Bool
  external_format : ExternalFormat
  webhook_quality : ℤ
  webhook_max_width : ℤ
  webhook_max_height : ℤ
deriving DecidableEq

/-- Dereference a service's configuration into its observable view. -/
def readConfig (s : Service) : ConfigView :=
  { interval := s.config.interval
    quality := s.config.quality
    resize_factor := s.config.resize_factor
    add_timestamp := s.config.add_timestamp
    monitor := s.config.monitor
    urls := get_webhook_urls s
    send_to_external := s.config.send_to_external
    external_format := s.config.external_format
    webhook_quality := s.config.webhook_quality
    webhook_max_width := s.config.webhook_max_width
    webhook_max_height := s.config.webhook_max_height }

/-- The argument of `update_config`: a partial dict of well-typed values
(`float()`/`int()`/`bool()` coercions already performed where they
cannot fail; a field that is absent from the dict is `none`). -/
structure ConfigUpdate where
  interval : Option ℚ := none
  quality : Option ℤ := none
  resize_factor : Option ℚ := none
  add_timestamp : Option Bool := none
  monitor : Option ℤ := none

/-- `update_config`, `'interval'` block: validate, then assign in place. -/
def updInterval (u : ConfigUpdate) (c : Config) : Except (String × Config) Config :=
  match u.interval with
  | none => .ok c
  | some i => if i ≤ 0 then .error ("Interval must be positive", c)
              else .ok { c with interval := i }

/-- `update_config`, `'quality'` block. -/
def updQuality (u : ConfigUpdate) (c : Config) : Except (String × Config) Config :=
  match u.quality with
  | none => .ok c
  | some q => if ¬ (1 ≤ q ∧ q ≤ 100) then .error ("Quality must be between 1 and 100", c)
              else .ok { c with quality := q }

/-- `update_config`, `'resize_factor'` block. -/
def updResize (u : ConfigUpdate) (c : Config) : Except (String × Config) Config :=
  match u.resize_factor with
  | none => .ok c
  | some r => if r ≤ 0 then .error ("Resize factor must be positive", c)
              else .ok { c with resize_factor := r }

/-- `update_config`, `'add_timestamp'` block: `bool()` never raises. -/
def updTimestamp (u : ConfigUpdate) (c : Config) : Except (String × Config) Config :=
  match u.add_timestamp with
  | none => .ok c
  | some b => .ok { c with add_timestamp := b }

/-- `update_config`, `'monitor'` block. -/
def updMonitor (u : ConfigUpdate) (c : Config) : Except (String × Config) Config :=
  match u.monitor with
  | none => .ok c
  | some m => if m < 0 then .error ("Monitor index must be non-negative", c)
              else .ok { c with monitor := m }

/-- The body of `update_config`'s `try` block: the five field blocks run
in source order, each mutating `self._config` in place; a raise aborts
the rest but keeps the mutations already performed (carried in the
error value). -/
def applyConfigUpdate (u : ConfigUpdate) (c : Config) : Except (String × Config) Config :=
  (updInterval u c).bind fun c =>
    (updQuality u c).bind fun c =>
      (updResize u c).bind fun c =>
        (updTimestamp u c).bind fun c =>
          updMonitor u c

/-- `update_config`: returns `True` on success; a `ValueError` is caught,
recorded in `self._last_error`, and `False` is returned — with the
in-place mutations made before the raise still applied. -/
def update_config (s : Service) (u : ConfigUpdate) : Service × Bool :=
  match applyConfigUpdate u s.config with
  | .ok c => ({ s with config := c }, true)
  | .error (msg, c) =>
      ({ s with config := c,
                last_error := some ("Invalid configuration: " ++ msg) }, false)

/-- `start_capture(interval=None, quality=None)`: library check, idempotent
early return while running, then the overrides are assigned *without
validation*, statistics are reset, the last error cleared and the
capture thread launched (thread start never fails in the model, so the
`except` branch is not taken). -/
def start_capture (s : Service) (i : Option ℚ) (q : Option ℤ) (t : Nat) :
    Service × Bool :=
  if s.capture_lib_available = false then
    ({ s with last_error := some "No screen capture library available" }, false)
  else if s.capturing then
    (s, true)
  else
    let c := { s.config with interval := i.getD s.config.interval,
                             quality := q.getD s.config.quality }
    ({ s with config := c
              capturing := true
              stats := { total_captures := 0
                         failed_captures := 0
                         start_time := some t }
              last_error := none }, true)

/-- `stop_capture`: warning-only no-op when idle, otherwise flip the flag
(the `join` on the capture thread has no state effect). -/
def stop_capture (s : Service) : Service :=
  if s.capturing = false then s else { s with capturing := false }

/-- `_create_test_image`: the synthetic 800×600 placeholder frame. -/
def create_test_image : Image :=
  { width := 800, height := 600, timestamped := false, placeholder := true }

/-- `_capture_screenshot`: a successful grab returns the acquired frame;
every failure path (headless environment or a raised exception) falls
back to `_create_test_image`, so the function never returns `None`. -/
def capture_screenshot (acq : Option Image) : Image :=
  match acq with
  | some img => img
  | none => create_test_image

/-- `_process_image`: scale both dimensions by `resize_factor` when it is
not 1.0 (`int()` truncation on each), then draw the timestamp overlay on
a copy when `add_timestamp` is set. -/
def process_image (c : Config) (img : Image) : Image :=
  let img1 :=
    if c.resize_factor ≠ 1 then
      { img with width := pyInt (img.width * c.resize_factor)
                 height := pyInt (img.height * c.resize_factor) }
    else img
  if c.add_timestamp then { img1 with timestamped := true } else img1

/-- One iteration of `_capture_loop`'s body, given the outcome of the
underlying grab (`none` = acquisition failure).  `_capture_screenshot`
always returns a PIL `Image` object, and such an object is truthy, so
the `if image:` branch is always taken: the frame (real or placeholder)
is processed, published, and counted in `total_captures`; the returned
`Option Image` is the frame handed to `_send_to_external_systems`
(`none` when external sending is disabled). -/
def capture_tick (s : Service) (acq : Option Image) (t : Nat) :
    Service × Option Image :=
  let image := capture_screenshot acq
  let processed := process_image s.config image
  let s' := { s with latest_image := some processed
                     last_capture_time := some t
                     stats := { s.stats with
                                  total_captures := s.stats.total_captures + 1 } }
  (s', if s.config.send_to_external then some processed else none)

/-- `feed_external_image`: process the injected frame, publish it, count
it, and hand it to the delivery path when external sending is enabled;
returns `True` (the `except` branch only fires on PIL-internal
failures, outside the pure model). -/
def feed_external_image (s : Service) (img : Image) (t : Nat) :
    Service × Bool × Option Image :=
  let processed := process_image s.config img
  let s' := { s with latest_image := some processed
                     last_capture_time := some t
                     stats := { s.stats with
                                  total_captures := s.stats.total_captures + 1 } }
  (s', true, if s.config.send_to_external then some processed else none)

/-- The `resize_factor` computed inside `_optimize_image_for_webhook`:
`min(width_factor, height_factor)`, where each bound ratio degenerates
to 1.0 when its dimension already fits. -/
def webhookShrinkFactor (c : Config) (img : Image) : ℚ :=
  min (if img.width > c.webhook_max_width
         then (c.webhook_max_width : ℚ) / (img.width : ℚ) else 1)
      (if img.height > c.webhook_max_height
         then (c.webhook_max_height : ℚ) / (img.height : ℚ) else 1)

/-- `_optimize_image_for_webhook`: one aspect-preserving downscale to fit
within `webhook_max_width` × `webhook_max_height`, applied only when the
combined factor is < 1. -/
def optimize_image_for_webhook (c : Config) (img : Image) : Image :=
  let resize_factor := webhookShrinkFactor c img
  if resize_factor < 1 then
    { img with width := pyInt ((img.width : ℚ) * resize_factor)
               height := pyInt ((img.height : ℚ) * resize_factor) }
  else img

/-- One rung of the adaptive delivery ladder: the JPEG quality and extra
resize factor used for the attempt, and the dimensions of the working
image actually encoded (`image.resize` only happens when the rung's
factor is < 1.0). -/
structure Attempt where
  quality : ℤ
  resize : ℚ
  width : ℤ
  height : ℤ
deriving DecidableEq

/-- `quality_levels` in `_send_image_to_url`. -/
def qualityLevels (webhook_quality : ℤ) : List ℤ :=
  [webhook_quality, max (webhook_quality - 20) 30, max (webhook_quality - 40) 20]

/-- `resize_factors` in `_send_image_to_url`. -/
def resizeFactors : List ℚ := [1, 8/10, 6/10]

/-- The three ladder rungs of `_send_image_to_url` for a given config and
(already webhook-optimized) image, in attempt order. -/
def ladderRungs (c : Config) (img : Image) : List Attempt :=
  (List.zip (qualityLevels c.webhook_quality) resizeFactors).map fun p =>
    { quality := p.1
      resize := p.2
      width := if p.2 < (1 : ℚ) then pyInt ((img.width : ℚ) * p.2) else img.width
      height := if p.2 < (1 : ℚ) then pyInt ((img.height : ℚ) * p.2) else img.height }

/-- The `for attempt in range(max_attempts)` loop of the base64 branch:
`post n` is the HTTP status of the n-th request.  Status 413 ⇒
`continue` to the next rung; any status in [400, 600) ⇒
`raise_for_status` raises and the error is surfaced (no retry); a
status < 400 ⇒ success and return.  Exhausting the rungs raises
`Exception("Failed to send image after 3 attempts...")`.  Returns
(success?, attempts actually made). -/
def runLadder (post : Nat → Nat) : List Attempt → Nat → Bool × List Attempt
  | [], _ => (false, [])
  | r :: rest, n =>
      let st := post n
      if st = 413 then
        let tail := runLadder post rest (n + 1)
        (tail.1, r :: tail.2)
      else if 400 ≤ st then (false, [r])
      else (true, [r])

/-- `_send_image_to_url`: the base64 branch runs the adaptive ladder; the
multipart branch encodes once at the *display* quality
(`self._config.get('quality', 85)`) with no resizing and makes exactly
one request, raising on any status in [400, 600). -/
def send_image_to_url (c : Config) (img : Image) (post : Nat → Nat) :
    Bool × List Attempt :=
  match c.external_format with
  | .base64 => runLadder post (ladderRungs c img) 0
  | .multipart =>
      let a : Attempt :=
        { quality := c.quality, resize := 1, width := img.width, height := img.height }
      if 400 ≤ post 0 then (false, [a]) else (true, [a])

/-- `add_webhook_url`: append in place if absent (the inner
`'webhook_urls' not in self._config` guard never fires, `__init__`
always creates the key), report a duplicate with `False`. -/
def add_webhook_url (s : Service) (u : String) : Service × Bool :=
  if u ∈ get_webhook_urls s then (s, false)
  else
    ({ s with heap := heapSet s.heap s.config.webhook_urls
                        (get_webhook_urls s ++ [u]) }, true)

/-- `remove_webhook_url`: `list.remove` deletes the first occurrence;
absent URLs are reported with `False` and nothing changes. -/
def remove_webhook_url (s : Service) (u : String) : Service × Bool :=
  if u ∈ get_webhook_urls s then
    ({ s with heap := heapSet s.heap s.config.webhook_urls
                        ((get_webhook_urls s).erase u) }, true)
  else (s, false)

/-- `enable_external_sending`. -/
def enable_external_sending (s : Service) (b : Bool) : Service :=
  { s with config := { s.config with send_to_external := b } }

/-- `set_external_format`: with a well-typed `ExternalFormat` the
membership test `format_type in ['base64', 'multipart']` always
succeeds. -/
def set_external_format (s : Service) (f : ExternalFormat) : Service × Bool :=
  ({ s with config := { s.config with external_format := f } }, true)

/-- A caller mutating the *nested* list of a snapshot returned by
`get_config()`: `snapshot['webhook_urls'].append(u)` goes through the
list reference stored in the snapshot and mutates the heap object
in place. -/
def snapshot_append_url (s : Service) (snap : Config) (u : String) : Service :=
  { s with heap := heapSet s.heap snap.webhook_urls (s.heap snap.webhook_urls ++ [u]) }

/-- The public operations of the service (for whole-lifecycle claims).
`start`'s optional interval/quality overrides are carried verbatim. -/
inductive Op where
  | update (u : ConfigUpdate)
  | start (i : Option ℚ) (q : Option ℤ) (t : Nat)
  | stop
  | tick (acq : Option Image) (t : Nat)
  | feed (img : Image) (t : Nat)
  | addUrl (u : String)
  | removeUrl (u : String)
  | enableExternal (b : Bool)
  | setFormat (f : ExternalFormat)

/-- Run one public operation (state effect only). -/
def runOp (s : Service) : Op → Service
  | .update u => (update_config s u).1
  | .start i q t => (start_capture s i q t).1
  | .stop => stop_capture s
  | .tick acq t => (capture_tick s acq t).1
  | .feed img t => (feed_external_image s img t).1
  | .addUrl u => (add_webhook_url s u).1
  | .removeUrl u => (remove_webhook_url s u).1
  | .enableExternal b => enable_external_sending s b
  | .setFormat f => (set_external_format s f).1

/-- Run a sequence of public operations. -/
def runOps (s : Service) (ops : List Op) : Service :=
  ops.foldl runOp s

/-- The numeric-range property claimed for the configuration. -/
def configOk (c : Config) : Prop :=
  0 < c.interval ∧ 1 ≤ c.quality ∧ c.quality ≤ 100 ∧
    0 < c.resize_factor ∧ 0 ≤ c.monitor

instance (c : Config) : Decidable (configOk c) := by
  unfold configOk; infer_instance

/-- The `'interval'` value supplied by an update, if any, passes its check. -/
def intervalOk (u : ConfigUpdate) : Prop := ∀ i ∈ u.interval, 0 < i

/-- The `'quality'` value supplied by an update, if any, passes its check. -/
def qualityOk (u : ConfigUpdate) : Prop := ∀ q ∈ u.quality, 1 ≤ q ∧ q ≤ 100

/-- The `'resize_factor'` value supplied by an update, if any, passes its check. -/
def resizeOk (u : ConfigUpdate) : Prop := ∀ r ∈ u.resize_factor, 0 < r

/-- The `'monitor'` value supplied by an update, if any, passes its check. -/
def monitorOk (u : ConfigUpdate) : Prop := ∀ m ∈ u.monitor, 0 ≤ m

/-- `configOk` of the configuration carried by either component of a
field-block result. -/
def exOk (r : Except (String × Config) Config) : Prop :=
  match r with
  | .ok c => configOk c
  | .error (_, c) => configOk c

/-- The range preconditions under which a `start` override respects the
configuration invariant: a supplied interval must be positive and a
supplied quality must lie in 1..100. -/
def opOverrideOk : Op → Prop
  | .start i q _ => (∀ x ∈ i, 0 < x) ∧ (∀ y ∈ q, 1 ≤ y ∧ y ≤ 100)
  | _ => True

/-- A concrete running service: fresh service successfully started. -/
def runningService : Service := (start_capture (initService true) none none 0).1

/-- A concrete service holding exactly one webhook URL. -/
def oneUrlService : Service := (add_webhook_url (initService true) "http://a").1

lemma ok_bind (a : Config) (f : Config → Except (String × Config) Config) :
    (Except.ok (ε := String × Config) a).bind f = f a := rfl

lemma err_bind (e : String × Config) (f : Config → Except (String × Config) Config) :
    (Except.error (α := Config) e).bind f = .error e := rfl

lemma updInterval_of_ok (u : ConfigUpdate) (c : Config) (h : intervalOk u) :
    updInterval u c = .ok { c with interval := u.interval.getD c.interval } := by
  unfold updInterval
  cases hu : u.interval with
  | none => simp
  | some i =>
      have hi : 0 < i := h i (by simp [hu])
      simp [hu, not_le.mpr hi]

lemma updInterval_of_bad (u : ConfigUpdate) (c : Config) (h : ¬ intervalOk u) :
    updInterval u c = .error ("Interval must be positive", c) := by
  unfold updInterval
  cases hu : u.interval with
  | none => exact absurd (by simp [intervalOk, hu]) h
  | some i =>
      rcases le_or_lt i 0 with hle | hlt
      · simp [hle]
      · exact absurd (by simp [intervalOk, hu, hlt]) h

lemma updQuality_of_ok (u : ConfigUpdate) (c : Config) (h : qualityOk u) :
    updQuality u c = .ok { c with quality := u.quality.getD c.quality } := by
  unfold updQuality
  cases hu : u.quality with
  | none => simp
  | some q =>
      have hq := h q (by simp [hu])
      simp [hu, hq]

lemma updQuality_of_bad (u : ConfigUpdate) (c : Config) (h : ¬ qualityOk u) :
    updQuality u c = .error ("Quality must be between 1 and 100", c) := by
  unfold updQuality
  cases hu : u.quality with
  | none => exact absurd (by simp [qualityOk, hu]) h
  | some q =>
      by_cases hq : 1 ≤ q ∧ q ≤ 100
      · exact absurd (by simp [qualityOk, hu, hq.1, hq.2]) h
      · simp [hq]

lemma updResize_of_ok (u : ConfigUpdate) (c : Config) (h : resizeOk u) :
    updResize u c = .ok { c with resize_factor := u.resize_factor.getD c.resize_factor } := by
  unfold updResize
  cases hu : u.resize_factor with
  | none => simp
  | some r =>
      have hr : 0 < r := h r (by simp [hu])
      simp [hu, not_le.mpr hr]

lemma updResize_of_bad (u : ConfigUpdate) (c : Config) (h : ¬ resizeOk u) :
    updResize u c = .error ("Resize factor must be positive", c) := by
  unfold updResize
  cases hu : u.resize_factor with
  | none => exact absurd (by simp [resizeOk, hu]) h
  | some r =>
      rcases le_or_lt r 0 with hle | hlt
      · simp [hle]
      · exact absurd (by simp [resizeOk, hu, hlt]) h

lemma updTimestamp_eq (u : ConfigUpdate) (c : Config) :
    updTimestamp u c = .ok { c with add_timestamp := u.add_timestamp.getD c.add_timestamp } := by
  unfold updTimestamp
  cases hu : u.add_timestamp <;> simp

lemma updMonitor_of_ok (u : ConfigUpdate) (c : Config) (h : monitorOk u) :
    updMonitor u c = .ok { c with monitor := u.monitor.getD c.monitor } := by
  unfold updMonitor
  cases hu : u.monitor with
  | none => simp
  | some m =>
      have hm : 0 ≤ m := h m (by simp [hu])
      simp [hu, not_lt.mpr hm]

lemma updMonitor_of_bad (u : ConfigUpdate) (c : Config) (h : ¬ monitorOk u) :
    updMonitor u c = .error ("Monitor index must be non-negative", c) := by
  unfold updMonitor
  cases hu : u.monitor with
  | none => exact absurd (by simp [monitorOk, hu]) h
  | some m =>
      rcases lt_or_le m 0 with hlt | hle
      · simp [hlt]
      · exact absurd (by simp [monitorOk, hu, hle]) h

/-- C5: For every valid partial configuration update, `update_config`
returns success, the configuration afterwards carries the new value in
exactly the supplied fields and the old value in every other field, and
nothing else in the service state changes. -/
theorem update_config_valid_exact (s : Service) (u : ConfigUpdate)
    (hi : intervalOk u) (hq : qualityOk u) (hr : resizeOk u) (hm : monitorOk u) :
    (update_config s u).2 = true ∧
    (update_config s u).1.config =
      { s.config with
          interval := u.interval.getD s.config.interval
          quality := u.quality.getD s.config.quality
          resize_factor := u.resize_factor.getD s.config.resize_factor
          add_timestamp := u.add_timestamp.getD s.config.add_timestamp
          monitor := u.monitor.getD s.config.monitor } ∧
    (update_config s u).1.heap = s.heap ∧
    (update_config s u).1.stats = s.stats ∧
    (update_config s u).1.last_error = s.last_error ∧
    (update_config s u).1.capturing = s.capturing ∧
    (update_config s u).1.latest_image = s.latest_image := by
  unfold update_config applyConfigUpdate
  rw [updInterval_of_ok u _ hi, ok_bind, updQuality_of_ok u _ hq, ok_bind,
      updResize_of_ok u _ hr, ok_bind, updTimestamp_eq, ok_bind,
      updMonitor_of_ok u _ hm]
  exact ⟨rfl, rfl, rfl, rfl, rfl, rfl, rfl⟩

/-- C5 witness: a concrete valid two-field update at the initial state. -/
theorem update_config_valid_exact_witness :
    (update_config (initService true) { interval := some 2, quality := some 90 }).2 = true ∧
    (update_config (initService true) { interval := some 2, quality := some 90 }).1.config =
      { (initService true).config with interval := 2, quality := 90 } := by
  have h := update_config_valid_exact (initService true)
    { interval := some 2, quality := some 90 }
    (by intro i hi; rw [Option.mem_def, Option.some_inj] at hi; rw [← hi]; norm_num)
    (by intro q hq; rw [Option.mem_def, Option.some_inj] at hq; rw [← hq]; constructor <;> norm_num)
    (by intro r hr; simp at hr)
    (by intro m hm; simp at hm)
  exact ⟨h.1, h.2.1⟩

/-- C1 counterexample: the partial update `{'interval': 2, 'quality': 0}`
contains an invalid field (`quality = 0`), `update_config` returns
failure — yet the configuration observed afterwards differs from the one
before the call: the valid `interval` field was already applied. -/
theorem update_config_not_atomic :
    (update_config (initService true) { interval := some 2, quality := some 0 }).2 = false ∧
    readConfig (update_config (initService true) { interval := some 2, quality := some 0 }).1 ≠
      readConfig (initService true) ∧
    (update_config (initService true) { interval := some 2, quality := some 0 }).1.config.interval = 2 := by
  refine ⟨by decide, ?_, by decide⟩
  intro h
  have : (readConfig (update_config (initService true)
      { interval := some 2, quality := some 0 }).1).interval =
      (readConfig (initService true)).interval := by rw [h]
  revert this
  decide

/-- C1 amended: an update containing at least one invalid field returns
failure and records an error, but it is *not* atomic: the field blocks
run in source order (interval, quality, resize_factor, add_timestamp,
monitor) and every block before the first invalid one has already been
applied when the update is rejected; only an update whose first invalid
field precedes all its valid fields leaves the configuration unchanged. -/
theorem update_config_invalid_partial (s : Service) (u : ConfigUpdate)
    (h : ¬ (intervalOk u ∧ qualityOk u ∧ resizeOk u ∧ monitorOk u)) :
    (update_config s u).2 = false ∧
    (update_config s u).1.last_error ≠ none ∧
    (¬ intervalOk u → (update_config s u).1.config = s.config) ∧
    (intervalOk u → ¬ qualityOk u →
      (update_config s u).1.config =
        { s.config with interval := u.interval.getD s.config.interval }) ∧
    (intervalOk u → qualityOk u → ¬ resizeOk u →
      (update_config s u).1.config =
        { s.config with
            interval := u.interval.getD s.config.interval
            quality := u.quality.getD s.config.quality }) ∧
    (intervalOk u → qualityOk u → resizeOk u → ¬ monitorOk u →
      (update_config s u).1.config =
        { s.config with
            interval := u.interval.getD s.config.interval
            quality := u.quality.getD s.config.quality
            resize_factor := u.resize_factor.getD s.config.resize_factor
            add_timestamp := u.add_timestamp.getD s.config.add_timestamp }) := by
  by_cases hi : intervalOk u
  · by_cases hq : qualityOk u
    · by_cases hr : resizeOk u
      · have hm : ¬ monitorOk u := by tauto
        unfold update_config applyConfigUpdate
        rw [updInterval_of_ok u _ hi, ok_bind, updQuality_of_ok u _ hq, ok_bind,
            updResize_of_ok u _ hr, ok_bind, updTimestamp_eq, ok_bind,
            updMonitor_of_bad u _ hm]
        exact ⟨rfl, by simp, fun hi' => absurd hi hi',
               fun _ hq' => absurd hq hq', fun _ _ hr' => absurd hr hr',
               fun _ _ _ _ => rfl⟩
      · unfold update_config applyConfigUpdate
        rw [updInterval_of_ok u _ hi, ok_bind, updQuality_of_ok u _ hq, ok_bind,
            updResize_of_bad u _ hr, err_bind]
        exact ⟨rfl, by simp, fun hi' => absurd hi hi',
               fun _ hq' => absurd hq hq', fun _ _ _ => rfl,
               fun _ _ hr' _ => absurd hr' hr⟩
    · unfold update_config applyConfigUpdate
      rw [updInterval_of_ok u _ hi, ok_bind, updQuality_of_bad u _ hq, err_bind]
      exact ⟨rfl, by simp, fun hi' => absurd hi hi', fun _ _ => rfl,
             fun _ hq' => absurd hq' hq, fun _ hq' => absurd hq' hq⟩
  · unfold update_config applyConfigUpdate
    rw [updInterval_of_bad u _ hi, err_bind]
    exact ⟨rfl, by simp, fun _ => rfl, fun hi' => absurd hi' hi,
           fun hi' => absurd hi' hi, fun hi' => absurd hi' hi⟩

/-- C1 amended witness: concrete invalid update `{'interval': 2, 'quality': 0}`. -/
theorem update_config_invalid_partial_witness :
    (update_config (initService true) { interval := some 2, quality := some 0 }).2 = false ∧
    (update_config (initService true) { interval := some 2, quality := some 0 }).1.config =
      { (initService true).config with interval := 2 } := by
  have h := update_config_invalid_partial (initService true)
    { interval := some 2, quality := some 0 }
    (by intro hc; exact absurd (hc.2.1 0 (by rw [Option.mem_def])) (by norm_num))
  refine ⟨h.1, ?_⟩
  have := h.2.2.2.1
    (by intro i hi; rw [Option.mem_def, Option.some_inj] at hi; rw [← hi]; norm_num)
    (by intro hq; exact absurd (hq 0 (by rw [Option.mem_def])) (by norm_num))
  exact this

/-- C3 counterexample: a tick whose frame acquisition fails (`none`) on
the fresh service does substitute the synthetic placeholder and still
produces a frame — but it is counted as a *successful* capture:
`total_captures` becomes 1 while `failed_captures` stays 0, contradicting
the claim that the failed-captures counter is incremented on that tick. -/
theorem tick_acquisition_failure_not_counted :
    (capture_tick (initService true) none 5).1.latest_image =
      some (process_image initConfig create_test_image) ∧
    (capture_tick (initService true) none 5).1.stats.total_captures = 1 ∧
    (capture_tick (initService true) none 5).1.stats.failed_captures = 0 := by
  refine ⟨rfl, rfl, rfl⟩

/-- C3 amended: on every capture-loop tick whose frame acquisition fails,
the synthetic placeholder frame is substituted, so the tick still
publishes a processed frame and the loop does not stall — but the tick
is counted as a successful capture: `total_captures` is incremented and
`failed_captures` is left unchanged (the loop's failed branch is
unreachable because `_capture_screenshot` never returns `None`). -/
theorem tick_acquisition_failure_placeholder (s : Service) (t : Nat) :
    (capture_tick s none t).1.latest_image =
      some (process_image s.config create_test_image) ∧
    (process_image s.config create_test_image).placeholder = true ∧
    (capture_tick s none t).1.last_capture_time = some t ∧
    (capture_tick s none t).1.stats.total_captures = s.stats.total_captures + 1 ∧
    (capture_tick s none t).1.stats.failed_captures = s.stats.failed_captures := by
  refine ⟨rfl, ?_, rfl, rfl, rfl⟩
  unfold process_image create_test_image
  by_cases hr : s.config.resize_factor ≠ 1 <;> by_cases ht : s.config.add_timestamp <;>
    simp [hr, ht]

/-- C8: `feed_external_frame(F)` succeeds from *every* service state,
active or idle: it returns `True`, publishes exactly the processed
version of `F` (configured resize factor and timestamp overlay applied
by `_process_image`), refreshes the last capture time, increments
`total_captures` by exactly one (leaving `failed_captures` alone), and
hands the processed frame to the external-delivery path precisely when
`send_to_external` is enabled — the very same publish-and-deliver
behaviour as a capture-loop tick that acquires `F`. -/
theorem feed_external_image_spec (s : Service) (img : Image) (t : Nat) :
    (feed_external_image s img t).2.1 = true ∧
    (feed_external_image s img t).1.latest_image =
      some (process_image s.config img) ∧
    (feed_external_image s img t).1.last_capture_time = some t ∧
    (feed_external_image s img t).1.stats.total_captures =
      s.stats.total_captures + 1 ∧
    (feed_external_image s img t).1.stats.failed_captures =
      s.stats.failed_captures ∧
    (feed_external_image s img t).2.2 =
      (if s.config.send_to_external then some (process_image s.config img) else none) ∧
    capture_tick s (some img) t =
      ((feed_external_image s img t).1, (feed_external_image s img t).2.2) := by
  exact ⟨rfl, rfl, rfl, rfl, rfl, rfl, rfl⟩

lemma pyInt_of_nonneg (q : ℚ) (h : 0 ≤ q) : pyInt q = ⌊q⌋ := if_pos h

lemma pyInt_le_intCast (q : ℚ) (z : ℤ) (h0 : 0 ≤ q) (h : q ≤ (z : ℚ)) :
    pyInt q ≤ z := by
  rw [pyInt_of_nonneg q h0]
  calc ⌊q⌋ ≤ ⌊(z : ℚ)⌋ := Int.floor_le_floor h
    _ = z := Int.floor_intCast z

lemma dim_bound (d m : ℤ) (hd : (0 : ℚ) < (d : ℚ)) (f : ℚ)
    (hf : f ≤ (if d > m then (m : ℚ) / (d : ℚ) else 1)) :
    (d : ℚ) * f ≤ (m : ℚ) := by
  by_cases h : d > m
  · rw [if_pos h] at hf
    calc (d : ℚ) * f ≤ (d : ℚ) * ((m : ℚ) / (d : ℚ)) :=
          mul_le_mul_of_nonneg_left hf (le_of_lt hd)
      _ = (m : ℚ) := by field_simp
  · rw [if_neg h] at hf
    have hdm : (d : ℚ) ≤ (m : ℚ) := by exact_mod_cast not_lt.mp h
    calc (d : ℚ) * f ≤ (d : ℚ) * 1 := mul_le_mul_of_nonneg_left hf (le_of_lt hd)
      _ = (d : ℚ) := mul_one _
      _ ≤ (m : ℚ) := hdm

/-- C7: pre-delivery shrink.  For positive dimensions and positive
configured bounds: a frame already within both bounds is returned
unchanged; a frame exceeding either bound is downscaled exactly once,
both dimensions multiplied by the *same* single factor — the minimum of
the two bound ratios, strictly between 0 and 1 — and the result fits
within both bounds (content flags untouched). -/
theorem optimize_image_fits (c : Config) (img : Image)
    (hw : 0 < img.width) (hh : 0 < img.height)
    (hmw : 0 < c.webhook_max_width) (hmh : 0 < c.webhook_max_height) :
    (img.width ≤ c.webhook_max_width ∧ img.height ≤ c.webhook_max_height →
      optimize_image_for_webhook c img = img) ∧
    (c.webhook_max_width < img.width ∨ c.webhook_max_height < img.height →
      0 < webhookShrinkFactor c img ∧
      webhookShrinkFactor c img < 1 ∧
      optimize_image_for_webhook c img =
        { img with
            width := pyInt ((img.width : ℚ) * webhookShrinkFactor c img)
            height := pyInt ((img.height : ℚ) * webhookShrinkFactor c img) } ∧
      (optimize_image_for_webhook c img).width ≤ c.webhook_max_width ∧
      (optimize_image_for_webhook c img).height ≤ c.webhook_max_height ∧
      (optimize_image_for_webhook c img).timestamped = img.timestamped ∧
      (optimize_image_for_webhook c img).placeholder = img.placeholder) := by
  have hwq : (0 : ℚ) < (img.width : ℚ) := by exact_mod_cast hw
  have hhq : (0 : ℚ) < (img.height : ℚ) := by exact_mod_cast hh
  have hmwq : (0 : ℚ) < (c.webhook_max_width : ℚ) := by exact_mod_cast hmw
  have hmhq : (0 : ℚ) < (c.webhook_max_height : ℚ) := by exact_mod_cast hmh
  have hf_pos : 0 < webhookShrinkFactor c img := by
    unfold webhookShrinkFactor
    apply lt_min
    · split
      · exact div_pos hmwq hwq
      · exact one_pos
    · split
      · exact div_pos hmhq hhq
      · exact one_pos
  have hXw : (img.width : ℚ) * webhookShrinkFactor c img ≤ (c.webhook_max_width : ℚ) :=
    dim_bound img.width c.webhook_max_width hwq _
      (min_le_left _ _)
  have hXh : (img.height : ℚ) * webhookShrinkFactor c img ≤ (c.webhook_max_height : ℚ) :=
    dim_bound img.height c.webhook_max_height hhq _
      (min_le_right _ _)
  constructor
  · rintro ⟨hbw, hbh⟩
    have h1 : ¬ img.width > c.webhook_max_width := not_lt.mpr hbw
    have h2 : ¬ img.height > c.webhook_max_height := not_lt.mpr hbh
    unfold optimize_image_for_webhook webhookShrinkFactor
    rw [if_neg h1, if_neg h2]
    norm_num
  · intro hout
    have hf_lt : webhookShrinkFactor c img < 1 := by
      unfold webhookShrinkFactor
      rcases hout with h | h
      · apply lt_of_le_of_lt (min_le_left _ _)
        rw [if_pos h]
        rw [div_lt_one hwq]
        exact_mod_cast h
      · apply lt_of_le_of_lt (min_le_right _ _)
        rw [if_pos h]
        rw [div_lt_one hhq]
        exact_mod_cast h
    have heq : optimize_image_for_webhook c img =
        { img with
            width := pyInt ((img.width : ℚ) * webhookShrinkFactor c img)
            height := pyInt ((img.height : ℚ) * webhookShrinkFactor c img) } := by
      unfold optimize_image_for_webhook
      rw [if_pos hf_lt]
    refine ⟨hf_pos, hf_lt, heq, ?_, ?_, ?_, ?_⟩
    · rw [heq]
      exact pyInt_le_intCast _ _
        (le_of_lt (mul_pos hwq hf_pos)) hXw
    · rw [heq]
      exact pyInt_le_intCast _ _
        (le_of_lt (mul_pos hhq hf_pos)) hXh
    · rw [heq]
    · rw [heq]

/-- C7 witness: a 1920×1080 frame against the default 1280×720 bounds
shrinks by the single factor 2/3 to exactly 1280×720; the frame flags
survive. -/
theorem optimize_image_fits_witness :
    optimize_image_for_webhook initConfig
      { width := 1920, height := 1080, timestamped := true, placeholder := false } =
      { width := 1280, height := 720, timestamped := true, placeholder := false } ∧
    (optimize_image_for_webhook initConfig
      { width := 1920, height := 1080, timestamped := true, placeholder := false }).width ≤ 1280 := by
  have h := optimize_image_fits initConfig
    { width := 1920, height := 1080, timestamped := true, placeholder := false }
    (by norm_num) (by norm_num)
    (by show (0:ℤ) < 1280; norm_num) (by show (0:ℤ) < 720; norm_num)
  have h2 := h.2 (by left; show (1280:ℤ) < 1920; norm_num)
  refine ⟨?_, ?_⟩
  · rw [h2.2.2.1]
    norm_num [webhookShrinkFactor, initConfig, pyInt]
  · exact h2.2.2.2.1

/-- C6 counterexample: `dict.copy()` is shallow.  Appending a URL to the
nested `webhook_urls` list of the snapshot returned by `get_config()`
on a fresh service mutates the service's own list: the webhook targets
observed afterwards are `["http://x"]`, not the original `[]`. -/
theorem get_config_snapshot_not_immutable :
    get_webhook_urls
        (snapshot_append_url (initService true) (get_config (initService true)) "http://x") =
      ["http://x"] ∧
    get_webhook_urls (initService true) = [] ∧
    get_webhook_urls
        (snapshot_append_url (initService true) (get_config (initService true)) "http://x") ≠
      get_webhook_urls (initService true) := by
  refine ⟨rfl, rfl, ?_⟩
  intro h
  rw [show get_webhook_urls
        (snapshot_append_url (initService true) (get_config (initService true)) "http://x") =
      ["http://x"] from rfl,
     show get_webhook_urls (initService true) = [] from rfl] at h
  exact List.cons_ne_nil _ _ h

/-- C6 amended: `get_config()` returns a *shallow* snapshot copy — the
scalar entries are caller-private copies and the service's own
configuration record is never touched by anything done to the snapshot,
but the nested webhook-URL list is shared by reference: an in-place
append through the snapshot is immediately visible in the service's
webhook target list. -/
theorem get_config_shallow_snapshot (s : Service) (u : String) :
    (snapshot_append_url s (get_config s) u).config = s.config ∧
    (snapshot_append_url s (get_config s) u).stats = s.stats ∧
    (snapshot_append_url s (get_config s) u).latest_image = s.latest_image ∧
    get_webhook_urls (snapshot_append_url s (get_config s) u) =
      get_webhook_urls s ++ [u] := by
  refine ⟨rfl, rfl, rfl, ?_⟩
  simp [snapshot_append_url, get_config, get_webhook_urls, heapSet]

lemma ladderRungs_eq (c : Config) (img : Image) :
    ladderRungs c img =
      [{ quality := c.webhook_quality, resize := 1,
         width := img.width, height := img.height },
       { quality := max (c.webhook_quality - 20) 30, resize := 8/10,
         width := pyInt ((img.width : ℚ) * (8/10)),
         height := pyInt ((img.height : ℚ) * (8/10)) },
       { quality := max (c.webhook_quality - 40) 20, resize := 6/10,
         width := pyInt ((img.width : ℚ) * (6/10)),
         height := pyInt ((img.height : ℚ) * (6/10)) }] := by
  unfold ladderRungs qualityLevels resizeFactors
  norm_num

lemma ladderRungs_map_quality (c : Config) (img : Image) :
    (ladderRungs c img).map Attempt.quality = qualityLevels c.webhook_quality := by
  rw [ladderRungs_eq]
  unfold qualityLevels
  simp

lemma ladderRungs_map_resize (c : Config) (img : Image) :
    (ladderRungs c img).map Attempt.resize = resizeFactors := by
  rw [ladderRungs_eq]
  unfold resizeFactors
  simp

lemma runLadder_cons (post : Nat → Nat) (r : Attempt) (rest : List Attempt) (n : Nat) :
    runLadder post (r :: rest) n =
      if post n = 413 then
        ((runLadder post rest (n + 1)).1, r :: (runLadder post rest (n + 1)).2)
      else if 400 ≤ post n then (false, [r])
      else (true, [r]) := rfl

/-- C2 counterexample: with the `multipart` payload format configured,
a target answering 413 (payload too large) gets exactly ONE attempt,
encoded at the display quality 85 rather than at the first webhook-
quality rung, and the delivery fails without ever trying a second rung —
the adaptive ladder exists only in the `base64` branch. -/
theorem multipart_413_not_retried :
    (send_image_to_url { initConfig with external_format := .multipart }
        { width := 800, height := 600, timestamped := true, placeholder := false }
        (fun _ => 413)).1 = false ∧
    (send_image_to_url { initConfig with external_format := .multipart }
        { width := 800, height := 600, timestamped := true, placeholder := false }
        (fun _ => 413)).2.length = 1 ∧
    (send_image_to_url { initConfig with external_format := .multipart }
        { width := 800, height := 600, timestamped := true, placeholder := false }
        (fun _ => 413)).2.map Attempt.quality = [85] := by
  refine ⟨rfl, rfl, rfl⟩

/-- C2 amended: the bounded adaptive ladder is a property of the `base64`
payload format only.  In `base64`, a delivery makes at most 3 attempts;
the attempts made are exactly a prefix of the fixed rung list (quality:
configured webhook quality, then −20 floored at 30, then −40 floored at
20; resize: 1.0, 0.8, 0.6); a further rung is tried exactly when the
response status is 413; any other failing status aborts the ladder at
that attempt; and three 413s leave the delivery failed.  In `multipart`,
exactly one attempt is made, encoded at the display quality with no
extra resize, and every failing status — 413 included — is surfaced
immediately. -/
theorem send_image_ladder (c : Config) (img : Image) (post : Nat → Nat) :
    (c.external_format = .base64 →
      (send_image_to_url c img post).2 =
        (ladderRungs c img).take (send_image_to_url c img post).2.length ∧
      1 ≤ (send_image_to_url c img post).2.length ∧
      (send_image_to_url c img post).2.length ≤ 3 ∧
      (ladderRungs c img).map Attempt.quality = qualityLevels c.webhook_quality ∧
      (ladderRungs c img).map Attempt.resize = resizeFactors ∧
      (post 0 ≠ 413 →
        (send_image_to_url c img post).2.length = 1 ∧
        ((send_image_to_url c img post).1 = true ↔ post 0 < 400)) ∧
      (post 0 = 413 → post 1 ≠ 413 →
        (send_image_to_url c img post).2.length = 2 ∧
        ((send_image_to_url c img post).1 = true ↔ post 1 < 400)) ∧
      (post 0 = 413 → post 1 = 413 →
        (send_image_to_url c img post).2.length = 3 ∧
        ((send_image_to_url c img post).1 = true ↔ post 2 < 400))) ∧
    (c.external_format = .multipart →
      (send_image_to_url c img post).2 =
        [{ quality := c.quality, resize := 1,
           width := img.width, height := img.height }] ∧
      ((send_image_to_url c img post).1 = true ↔ post 0 < 400)) := by
  obtain ⟨r0, r1, r2, hR⟩ :
      ∃ r0 r1 r2, ladderRungs c img = [r0, r1, r2] :=
    ⟨_, _, _, ladderRungs_eq c img⟩
  constructor
  · intro hfmt
    have hsend : send_image_to_url c img post = runLadder post [r0, r1, r2] 0 := by
      unfold send_image_to_url
      rw [hfmt, hR]
    refine ⟨?_, ?_, ?_, ladderRungs_map_quality c img, ladderRungs_map_resize c img,
            ?_, ?_, ?_⟩ <;>
      rw [hsend] <;>
      rw [runLadder_cons, runLadder_cons, runLadder_cons] <;>
      simp only [runLadder] <;>
      split_ifs <;>
      simp_all [hR]
  · intro hfmt
    have hsend : send_image_to_url c img post =
        (if 400 ≤ post 0 then (false, [⟨c.quality, 1, img.width, img.height⟩])
         else (true, [⟨c.quality, 1, img.width, img.height⟩])) := by
      unfold send_image_to_url
      rw [hfmt]
    by_cases hp : 400 ≤ post 0
    · rw [hsend, if_pos hp]
      exact ⟨rfl, iff_of_false (by simp) (by omega)⟩
    · rw [hsend, if_neg hp]
      exact ⟨rfl, iff_of_true rfl (by omega)⟩

/-- C2 witness: in `base64`, a target answering 413, 413, then 200 gets
exactly the three ladder attempts and the delivery succeeds. -/
theorem send_image_ladder_witness :
    (send_image_to_url initConfig
        { width := 800, height := 600, timestamped := true, placeholder := false }
        (fun n => if n < 2 then 413 else 200)).1 = true ∧
    (send_image_to_url initConfig
        { width := 800, height := 600, timestamped := true, placeholder := false }
        (fun n => if n < 2 then 413 else 200)).2.length = 3 := by
  have h := (send_image_ladder initConfig
    { width := 800, height := 600, timestamped := true, placeholder := false }
    (fun n => if n < 2 then 413 else 200)).1 rfl
  have h3 := h.2.2.2.2.2.2.2 (by norm_num) (by norm_num)
  exact ⟨h3.2.mpr (by norm_num), h3.1⟩

lemma exOk_bind (r : Except (String × Config) Config)
    (f : Config → Except (String × Config) Config)
    (hr : exOk r) (hf : ∀ c, configOk c → exOk (f c)) : exOk (r.bind f) := by
  cases r with
  | ok c => exact hf c hr
  | error e => exact hr

lemma updInterval_exOk (u : ConfigUpdate) (c : Config) (h : configOk c) :
    exOk (updInterval u c) := by
  unfold updInterval
  cases u.interval with
  | none => exact h
  | some i =>
      by_cases hi : i ≤ 0
      · simp only [hi, if_pos]; exact h
      · simp only [hi, if_neg, not_false_iff]
        obtain ⟨_, h2, h3, h4, h5⟩ := h
        exact ⟨not_le.mp hi, h2, h3, h4, h5⟩

lemma updQuality_exOk (u : ConfigUpdate) (c : Config) (h : configOk c) :
    exOk (updQuality u c) := by
  unfold updQuality
  cases u.quality with
  | none => exact h
  | some q =>
      by_cases hq : 1 ≤ q ∧ q ≤ 100
      · simp only [hq, not_true, if_neg, not_false_iff]
        obtain ⟨h1, _, _, h4, h5⟩ := h
        exact ⟨h1, hq.1, hq.2, h4, h5⟩
      · simp only [hq, not_false_iff, if_pos]; exact h

lemma updResize_exOk (u : ConfigUpdate) (c : Config) (h : configOk c) :
    exOk (updResize u c) := by
  unfold updResize
  cases u.resize_factor with
  | none => exact h
  | some r =>
      by_cases hr : r ≤ 0
      · simp only [hr, if_pos]; exact h
      · simp only [hr, if_neg, not_false_iff]
        obtain ⟨h1, h2, h3, _, h5⟩ := h
        exact ⟨h1, h2, h3, not_le.mp hr, h5⟩

lemma updTimestamp_exOk (u : ConfigUpdate) (c : Config) (h : configOk c) :
    exOk (updTimestamp u c) := by
  unfold updTimestamp
  cases u.add_timestamp with
  | none => exact h
  | some b => exact h

lemma updMonitor_exOk (u : ConfigUpdate) (c : Config) (h : configOk c) :
    exOk (updMonitor u c) := by
  unfold updMonitor
  cases u.monitor with
  | none => exact h
  | some m =>
      by_cases hm : m < 0
      · simp only [hm, if_pos]; exact h
      · simp only [hm, if_neg, not_false_iff]
        obtain ⟨h1, h2, h3, h4, _⟩ := h
        exact ⟨h1, h2, h3, h4, not_lt.mp hm⟩

/-- Whatever `update_config` does — succeed, or abort partway — every
numeric field it touched was individually validated, so the range
property survives. -/
lemma update_config_configOk (s : Service) (u : ConfigUpdate)
    (h : configOk s.config) : configOk (update_config s u).1.config := by
  have hall : exOk (applyConfigUpdate u s.config) := by
    unfold applyConfigUpdate
    refine exOk_bind _ _ (updInterval_exOk u _ h) fun c hc => ?_
    refine exOk_bind _ _ (updQuality_exOk u _ hc) fun c hc => ?_
    refine exOk_bind _ _ (updResize_exOk u _ hc) fun c hc => ?_
    refine exOk_bind _ _ (updTimestamp_exOk u _ hc) fun c hc => ?_
    exact updMonitor_exOk u _ hc
  unfold update_config
  revert hall
  cases applyConfigUpdate u s.config with
  | ok c => exact fun hc => hc
  | error e => obtain ⟨_, _⟩ := e; exact fun hc => hc

lemma runOp_configOk (s : Service) (op : Op)
    (h : configOk s.config) (hop : opOverrideOk op) :
    configOk (runOp s op).config := by
  cases op with
  | update u => exact update_config_configOk s u h
  | start i q t =>
      unfold runOp start_capture
      by_cases hl : s.capture_lib_available = false
      · simp only [hl, if_pos]; exact h
      · simp only [hl, if_neg, not_false_iff]
        by_cases hc : s.capturing
        · simp only [hc, if_pos]; exact h
        · simp only [hc, if_neg, not_false_iff]
          obtain ⟨h1, h2, h3, h4, h5⟩ := h
          obtain ⟨hi, hq⟩ := hop
          refine ⟨?_, ?_, ?_, h4, h5⟩
          · cases i with
            | none => exact h1
            | some x => exact hi x (by rw [Option.mem_def])
          · cases q with
            | none => exact h2
            | some y => exact (hq y (by rw [Option.mem_def])).1
          · cases q with
            | none => exact h3
            | some y => exact (hq y (by rw [Option.mem_def])).2
  | stop =>
      unfold runOp stop_capture
      by_cases hc : s.capturing = false
      · simp only [hc, if_pos]; exact h
      · simp only [hc, if_neg, not_false_iff]; exact h
  | tick acq t => exact h
  | feed img t => exact h
  | addUrl u =>
      unfold runOp add_webhook_url
      by_cases hm : u ∈ get_webhook_urls s
      · simp only [hm, if_pos]; exact h
      · simp only [hm, if_neg, not_false_iff]; exact h
  | removeUrl u =>
      unfold runOp remove_webhook_url
      by_cases hm : u ∈ get_webhook_urls s
      · simp only [hm, if_pos]; exact h
      · simp only [hm, if_neg, not_false_iff]; exact h
  | enableExternal b => exact h
  | setFormat f => exact h

/-- C4 counterexample: `start(interval = -1)` on a fresh service (capture
library present) succeeds and installs a non-positive interval — the
overrides of `start_capture` bypass validation, so the claimed range
invariant does not survive every sequence of public operations. -/
theorem start_override_breaks_invariant :
    (start_capture (initService true) (some (-1)) none 0).2 = true ∧
    (runOps (initService true) [.start (some (-1)) none 0]).config.interval = -1 ∧
    ¬ configOk (runOps (initService true) [.start (some (-1)) none 0]).config := by
  refine ⟨by decide, by decide, ?_⟩
  intro hok
  have := hok.1
  revert this
  decide

/-- C4 amended: the range invariant (interval > 0, quality in 1..100,
resize_factor > 0, monitor ≥ 0) holds after any sequence of public
operations *provided* the interval/quality overrides passed to `start`
are themselves in range — `start_capture` assigns them without
validation, so out-of-range overrides are the one way to break it; every
other operation preserves it unconditionally. -/
theorem config_invariant_of_ok_overrides (lib : Bool) (ops : List Op)
    (h : ∀ op ∈ ops, opOverrideOk op) :
    configOk (runOps (initService lib) ops).config := by
  have hinit : configOk (initService lib).config := by
    show configOk initConfig
    unfold initConfig configOk
    norm_num
  have main : ∀ (ops : List Op) (s : Service), configOk s.config →
      (∀ op ∈ ops, opOverrideOk op) → configOk (runOps s ops).config := by
    intro ops
    induction ops with
    | nil => exact fun s hs _ => hs
    | cons op rest ih =>
        intro s hs hops
        show configOk (runOps (runOp s op) rest).config
        exact ih _ (runOp_configOk _ _ hs (hops op (List.mem_cons_self op rest)))
          fun o ho => hops o (List.mem_cons_of_mem _ ho)
  exact main ops _ hinit h

/-- C9: lifecycle misuse is an idempotent no-op — `start_capture` while
already running (capture library present, the only way the flag can be
up) returns success and the *entire* service state, statistics,
configuration and last error included, is untouched; `stop_capture` on
an idle service changes nothing at all. -/
theorem lifecycle_misuse_noop (s : Service) (i : Option ℚ) (q : Option ℤ) (t : Nat) :
    (s.capturing = true → s.capture_lib_available = true →
      start_capture s i q t = (s, true)) ∧
    (s.capturing = false → stop_capture s = s) := by
  constructor
  · intro hc hl
    unfold start_capture
    simp [hl, hc]
  · intro hc
    unfold stop_capture
    simp [hc]

/-- C9 witness: double start on a concrete running service and stop on
the concrete idle service. -/
theorem lifecycle_misuse_noop_witness :
    start_capture runningService none none 7 = (runningService, true) ∧
    stop_capture (initService true) = initService true :=
  ⟨(lifecycle_misuse_noop runningService none none 7).1 rfl rfl,
   (lifecycle_misuse_noop (initService true) none none 7).2 rfl⟩

lemma get_webhook_urls_heapSet (s : Service) (l : List String) :
    get_webhook_urls { s with heap := heapSet s.heap s.config.webhook_urls l } = l := by
  simp [get_webhook_urls, heapSet]

/-- C10: webhook membership is a de-duplicated insertion-ordered set with
idempotent mutation.  Provided the current list has no duplicates (which
every add/remove history from the fresh service maintains): adding a
present URL returns `False` and leaves the single entry alone; adding an
absent URL appends it and returns `True`; removing a present URL deletes
exactly its (unique) entry and returns `True`; removing an absent URL
returns `False` and changes nothing. -/
theorem webhook_set_semantics (s : Service) (u : String)
    (h : (get_webhook_urls s).Nodup) :
    (u ∈ get_webhook_urls s →
      (add_webhook_url s u).2 = false ∧
      get_webhook_urls (add_webhook_url s u).1 = get_webhook_urls s ∧
      (get_webhook_urls s).count u = 1) ∧
    (u ∉ get_webhook_urls s →
      (add_webhook_url s u).2 = true ∧
      get_webhook_urls (add_webhook_url s u).1 = get_webhook_urls s ++ [u]) ∧
    (u ∈ get_webhook_urls s →
      (remove_webhook_url s u).2 = true ∧
      get_webhook_urls (remove_webhook_url s u).1 = (get_webhook_urls s).erase u ∧
      u ∉ get_webhook_urls (remove_webhook_url s u).1 ∧
      (get_webhook_urls (remove_webhook_url s u).1).length + 1 =
        (get_webhook_urls s).length) ∧
    (u ∉ get_webhook_urls s →
      (remove_webhook_url s u).2 = false ∧
      get_webhook_urls (remove_webhook_url s u).1 = get_webhook_urls s) := by
  refine ⟨fun hm => ?_, fun hm => ?_, fun hm => ?_, fun hm => ?_⟩
  · refine ⟨?_, ?_, List.count_eq_one_of_mem h hm⟩
    · unfold add_webhook_url; simp [hm]
    · unfold add_webhook_url; simp [hm]
  · constructor
    · unfold add_webhook_url; simp [hm]
    · unfold add_webhook_url
      simp only [hm, if_neg, not_false_iff]
      exact get_webhook_urls_heapSet s _
  · refine ⟨?_, ?_, ?_, ?_⟩
    · unfold remove_webhook_url; simp [hm]
    · unfold remove_webhook_url
      simp only [hm, if_pos]
      exact get_webhook_urls_heapSet s _
    · unfold remove_webhook_url
      simp only [hm, if_pos]
      rw [get_webhook_urls_heapSet s _]
      intro hmem
      exact absurd rfl (h.mem_erase_iff.mp hmem).1
    · unfold remove_webhook_url
      simp only [hm, if_pos]
      rw [get_webhook_urls_heapSet s _]
      exact List.length_erase_add_one hm
  · constructor
    · unfold remove_webhook_url; simp [hm]
    · unfold remove_webhook_url; simp [hm]

/-- C10 witness: the four scenarios on a concrete one-element set. -/
theorem webhook_set_semantics_witness :
    ((add_webhook_url oneUrlService "http://a").2 = false ∧
      get_webhook_urls (add_webhook_url oneUrlService "http://a").1 =
        get_webhook_urls oneUrlService ∧
      (get_webhook_urls oneUrlService).count "http://a" = 1) ∧
    ((add_webhook_url oneUrlService "http://b").2 = true ∧
      get_webhook_urls (add_webhook_url oneUrlService "http://b").1 =
        get_webhook_urls oneUrlService ++ ["http://b"]) ∧
    ((remove_webhook_url oneUrlService "http://a").2 = true ∧
      get_webhook_urls (remove_webhook_url oneUrlService "http://a").1 =
        (get_webhook_urls oneUrlService).erase "http://a" ∧
      "http://a" ∉ get_webhook_urls (remove_webhook_url oneUrlService "http://a").1 ∧
      (get_webhook_urls (remove_webhook_url oneUrlService "http://a").1).length + 1 =
        (get_webhook_urls oneUrlService).length) ∧
    ((remove_webhook_url oneUrlService "http://b").2 = false ∧
      get_webhook_urls (remove_webhook_url oneUrlService "http://b").1 =
        get_webhook_urls oneUrlService) := by
  have h := webhook_set_semantics oneUrlService "http://a" (by decide)
  have h' := webhook_set_semantics oneUrlService "http://b" (by decide)
  exact ⟨h.1 (by decide), (h'.2.1 (by decide)),
         h.2.2.1 (by decide), h'.2.2.2 (by decide)⟩

/-- C4 amended witness: a concrete mixed history with in-range overrides. -/
theorem config_invariant_of_ok_overrides_witness :
    configOk (runOps (initService true)
      [.start (some 2) (some 50) 0, .update { resize_factor := some 1 },
       .tick none 1, .stop, .addUrl "http://a"]).config := by
  apply config_invariant_of_ok_overrides
  intro op hop
  fin_cases hop
  · refine ⟨?_, ?_⟩
    · intro x hx; rw [Option.mem_def, Option.some_inj] at hx; rw [← hx]; norm_num
    · intro y hy; rw [Option.mem_def, Option.some_inj] at hy; rw [← hy]
      constructor <;> norm_num
  · exact trivial
  · exact trivial
  · exact trivial
  · exact trivial

end ScreenMonitor
